import Mathlib

/-!
Verification development for the field-boundary comparison application
(`src/main.py`): geometry normalization, geodetic/planar area computation,
projection fallback, per-file processing, and boundary set algebra.

External geospatial libraries (shapely, pyproj, geopandas) are embedded at
the level of the semantics described in the design document: ring-level
signed ellipsoidal areas and CRS availability are parameters, coordinate
sets stand for shapely geometries in the set-algebra section.
-/

namespace RogoEarth

/-- A coordinate pair (longitude, latitude) as stored in a shapely ring. -/
abbrev Coord := ℚ × ℚ

/-- A linear ring: the ordered vertex list of one polygon boundary. -/
abbrev LinearRing := List Coord

/-- A shapely `Polygon`: one exterior ring plus a list of interior (hole)
rings. -/
structure PolygonData where
  exterior : LinearRing
  interiors : List LinearRing
deriving DecidableEq

/-- The geometry kinds dispatched on in `main.py`: `Polygon`,
`MultiPolygon` (whose members are always `Polygon`s), `GeometryCollection`
(heterogeneous members), and every non-polygonal kind (points, lines, ...)
collapsed into one constructor, since the source only ever tests
`isinstance` against the three polygonal classes. -/
inductive Geometry where
  | polygon (p : PolygonData)
  | multiPolygon (parts : List PolygonData)
  | geometryCollection (geoms : List Geometry)
  | nonPolygonal

/-- Modelled from the spec: the signed ellipsoidal ring integral computed by
pyproj's `geod.geometry_area_perimeter` (external to the repository) is kept
abstract as a function `S` on rings; for a `Polygon` the library accumulates
the line integral over every ring, so the polygon's signed area is the sum
of the exterior ring's signed area and each interior ring's signed area
(interior rings carry the opposite orientation, hence the opposite sign,
after validity repair). -/
def polygon_signed_area (S : LinearRing → ℚ) (p : PolygonData) : ℚ :=
  S p.exterior + (p.interiors.map S).sum

/-- `geodetic_area` from `main.py`: absolute value of the polygon's signed
ellipsoidal area; for a `MultiPolygon`, the sum of the members' absolute
areas; `0` for every other geometry (the final `return 0`). -/
def geodetic_area (S : LinearRing → ℚ) : Geometry → ℚ
  | .polygon p => |polygon_signed_area S p|
  | .multiPolygon parts => (parts.map fun p => |polygon_signed_area S p|).sum
  | .geometryCollection _ => 0
  | .nonPolygonal => 0

/-- `isinstance(g, Polygon)`. -/
def isPolygonInstance : Geometry → Bool
  | .polygon _ => true
  | _ => false

/-- `isinstance(g, (Polygon, MultiPolygon))`. -/
def isPolygonalInstance : Geometry → Bool
  | .polygon _ => true
  | .multiPolygon _ => true
  | _ => false

/-- `count_parts` from `main.py`. -/
def count_parts : Geometry → Nat
  | .polygon _ => 1
  | .multiPolygon parts =>
      ((parts.map Geometry.polygon).filter isPolygonInstance).length
  | .geometryCollection gs => (gs.filter isPolygonalInstance).length
  | .nonPolygonal => 0

/-- `count_holes` from `main.py` (recursive through collections). -/
def count_holes : Geometry → Nat
  | .polygon p => p.interiors.length
  | .multiPolygon parts => (parts.map fun p => p.interiors.length).sum
  | .geometryCollection gs => (gs.attach.map fun g => count_holes g.1).sum
  | .nonPolygonal => 0
decreasing_by
  have := List.sizeOf_lt_of_mem g.2
  simp only [Geometry.geometryCollection.sizeOf_spec]
  omega

/-- `get_poly_type` from `main.py`. -/
def get_poly_type : Geometry → String
  | .polygon _ => "polygon"
  | .multiPolygon _ => "multipolygon"
  | .geometryCollection _ => "geom collection"
  | .nonPolygonal => "unknown"

/-- `gdf.explode(index_parts=False, ignore_index=True)`: each multi-part
geometry is replaced by its parts, single-part geometries are kept. -/
def explode_parts : Geometry → List Geometry
  | .multiPolygon parts => parts.map .polygon
  | .geometryCollection gs => gs
  | g => [g]

/-! ## Per-file processing pipeline (`process_uploaded_files` and helpers) -/

/-- `ACRES_PER_SQ_METER = 0.000247105` from `main.py`, as the exact decimal
rational. -/
def ACRES_PER_SQ_METER : ℚ := 247105 / 1000000000

/-- Pandas `.round(2)`: round a value to two decimal places. -/
def round2 (q : ℚ) : ℚ := (round (q * 100) : ℤ) / 100

/-- Decimal digit rendering used by the Python f-string `f"{n}"`. -/
def digitChar (d : ℕ) : Char := Char.ofNat (48 + d)

/-- Little-endian decimal digits of `n`, computed with explicit fuel so the
function reduces definitionally (`fuel ≥ n` suffices). -/
def toDigitsRev (fuel n : ℕ) : List ℕ :=
  match fuel with
  | 0 => []
  | fuel + 1 => if n = 0 then [] else n % 10 :: toDigitsRev fuel (n / 10)

/-- Python `str` of a non-negative integer: its decimal digits, most
significant first. -/
def natToStr (n : ℕ) : String :=
  if n = 0 then "0" else String.mk (((toDigitsRev n n).map digitChar).reverse)

/-- The f-string `f"{file_idx+1}-{i+1}"` assigning `poly_id`. -/
def poly_id_str (fileIdx i : ℕ) : String :=
  natToStr (fileIdx + 1) ++ "-" ++ natToStr (i + 1)

/-- The geometry/CRS content read from one vector file, as handed to the
core by geopandas: a geometry column plus, for the declared CRS, which EPSG
codes the installed PROJ database can reproject it to (`to_crs` raises
`CRSError` exactly on the unavailable ones). -/
structure Gdf where
  geoms : List Geometry
  crsAvail : ℕ → Bool

/-- One uploaded file as seen by `read_vector_file`: its name, its
lowercased extension (`os.path.splitext(filename)[1].lower()`), and the
outcome of reading each container branch. `zipShp` is the read of the first
`.shp` member of the extracted zip (`none` when the archive has no `.shp`);
`kmzKml` likewise for the first `.kml` member of a KMZ; `kmlRead` and
`jsonRead` are the direct `gpd.read_file` outcomes, `Except.error` standing
for a raised parsing exception. -/
structure UploadedFile where
  name : String
  ext : String
  zipShp : Option (Except String Gdf)
  kmzKml : Option (Except String Gdf)
  kmlRead : Except String Gdf
  jsonRead : Except String Gdf

/-- `read_vector_file` from `main.py`: dispatch on the lowercased extension;
a `.zip` with no `.shp` member and a `.kmz` with no `.kml` member fall
through to the final `raise ValueError("Unsupported file format.")`, as does
any unrecognized extension. -/
def read_vector_file (f : UploadedFile) : Except String Gdf :=
  if f.ext = ".zip" then
    match f.zipShp with
    | some r => r
    | none => .error "Unsupported file format."
  else if f.ext = ".kmz" then
    match f.kmzKml with
    | some r => r
    | none => .error "Unsupported file format."
  else if f.ext = ".kml" then f.kmlRead
  else if f.ext = ".geojson" ∨ f.ext = ".json" then f.jsonRead
  else .error "Unsupported file format."

/-- `get_gdf_projection` from `main.py`: nested `try/except CRSError`
blocks attempting EPSG:6933, then EPSG:5070, then EPSG:3857; returns the
EPSG code actually used (`none` when all fail, leaving `gdf_proj = None`)
together with the warnings/errors emitted along the way. -/
def get_gdf_projection (avail : ℕ → Bool) : Option ℕ × List String :=
  if avail 6933 then (some 6933, [])
  else if avail 5070 then
    (some 5070, ["EPSG:6933 not available. Using EPSG:5070."])
  else if avail 3857 then
    (some 3857, ["EPSG:5070 also unavailable. Falling back to EPSG:3857."])
  else
    (none,
      ["EPSG:5070 also unavailable. Falling back to EPSG:3857.",
       "Failed to reproject to EPSG:3857. Cannot calculate planar area."])

/-- One row of a processed GeoDataFrame: the columns `process_uploaded_files`
attaches to each (exploded, cleaned) geometry. -/
structure FeatureRow where
  geometry : Geometry
  area_m2 : ℚ
  area_acres : ℚ
  poly_id : String
  enabled : Bool
  poly_type : String
  parts : ℕ
  holes : ℕ

/-- Column assignments of `process_uploaded_files` for one file: acres are
computed from the raw m² value, then both columns are rounded to two
decimals; `poly_id` is `f"{file_idx+1}-{i+1}"` over the row range; `enabled`
defaults to `True`. -/
def buildRows (fileIdx : ℕ) (geoms : List Geometry) (areas : List ℚ) :
    List FeatureRow :=
  ((geoms.zip areas).enum).map fun row =>
    { geometry := row.2.1
      area_m2 := round2 row.2.2
      area_acres := round2 (row.2.2 * ACRES_PER_SQ_METER)
      poly_id := poly_id_str fileIdx row.1
      enabled := true
      poly_type := get_poly_type row.2.1
      parts := count_parts row.2.1
      holes := count_holes row.2.1 }

/-- One entry of the `gdfs` list built by `process_uploaded_files`. -/
structure SourceGdf where
  source : String
  rows : List FeatureRow

/-- Per-file outcome inside the `for` loop of `process_uploaded_files`:
appended to `gdfs`, skipped by `continue` because no projection was
available, or a raised exception caught by the `except` block. -/
inductive FileOutcome where
  | ok (g : SourceGdf)
  | skippedNoProjection
  | failed (msg : String)

/-- The body of the `for` loop of `process_uploaded_files` for one file:
read, explode into single parts, repair every geometry (`clean_geometries`,
whose external `make_valid(...).buffer(0)` is the parameter `cleanG` and may
raise), then compute `area_m2` either geodetically (`use_spherical`) or via
the planar projection chain (skipping the file when no projection is
available), and attach the derived columns. -/
def process_one_file (cleanG : Geometry → Except String Geometry)
    (S : LinearRing → ℚ) (projArea : ℕ → Geometry → ℚ)
    (use_spherical : Bool) (fileIdx : ℕ) (f : UploadedFile) : FileOutcome :=
  match read_vector_file f with
  | .error e => .failed e
  | .ok gdf =>
    match (gdf.geoms.map explode_parts).flatten.mapM cleanG with
    | .error e => .failed e
    | .ok cleaned =>
      if use_spherical then
        .ok ⟨f.name, buildRows fileIdx cleaned (cleaned.map (geodetic_area S))⟩
      else
        match (get_gdf_projection gdf.crsAvail).1 with
        | none => .skippedNoProjection
        | some epsg =>
            .ok ⟨f.name, buildRows fileIdx cleaned (cleaned.map (projArea epsg))⟩

/-- `process_uploaded_files` from `main.py`: iterate over the enumerated
upload list, appending each successful file's GeoDataFrame to `gdfs`;
failures and projection-less files leave `gdfs` untouched. -/
def process_uploaded_files (cleanG : Geometry → Except String Geometry)
    (S : LinearRing → ℚ) (projArea : ℕ → Geometry → ℚ)
    (use_spherical : Bool) (files : List UploadedFile) : List SourceGdf :=
  files.enum.foldl
    (fun gdfs p =>
      match process_one_file cleanG S projArea use_spherical p.1 p.2 with
      | .ok g => gdfs ++ [g]
      | .skippedNoProjection => gdfs
      | .failed _ => gdfs)
    []

/-! ## Boundary set algebra (`display_boundary_difference`) -/

/-- A point of the plane, for the set-level semantics of shapely regions. -/
abbrev Point := ℚ × ℚ

/-- The point set covered by a shapely geometry. -/
abbrev Region := Set Point

/-- Modelled from the spec: the set-level coverage semantics of the external
shapely call `make_valid(g).buffer(0)` — validity repair produces "an
equivalent set of simple polygons covering the same total area" (§4.1), so
on regions it preserves the covered point set. -/
def make_valid_buffer0 (r : Region) : Region := r

/-- Shapely `unary_union` over a geometry column, as the iterative pairwise
union reduction described in the design document. -/
def unary_union (rs : List Region) : Region := rs.foldr (· ∪ ·) ∅

/-- A feature as seen by the comparison step: its (already repaired)
geometry's region and its current `enabled` visibility flag. -/
structure VFeature where
  region : Region
  enabled : Bool

/-- `unary_union(gdfs[i].geometry.apply(lambda g: make_valid(g).buffer(0)))`
from `display_boundary_difference`: the dissolved union of the dataset's
whole geometry column. -/
def dataset_union (fs : List VFeature) : Region :=
  unary_union (fs.map fun f => make_valid_buffer0 f.region)

/-- `only_in_1 = poly1.difference(poly2)` from `display_boundary_difference`,
including the second repair pass `poly_i = make_valid(poly_i).buffer(0)`
applied to each union before the difference. -/
def only_in_first (A B : List VFeature) : Region :=
  (make_valid_buffer0 (dataset_union A)) \ (make_valid_buffer0 (dataset_union B))

/-! ## Concrete instances used to evaluate the development -/

/-- The contribution of one enumerated file to the `gdfs` result list:
`some` of the appended GeoDataFrame, `none` when the file was skipped or its
exception caught. -/
def file_gdf_opt (cleanG : Geometry → Except String Geometry)
    (S : LinearRing → ℚ) (projArea : ℕ → Geometry → ℚ)
    (use_spherical : Bool) (p : ℕ × UploadedFile) : Option SourceGdf :=
  match process_one_file cleanG S projArea use_spherical p.1 p.2 with
  | .ok g => some g
  | .skippedNoProjection => none
  | .failed _ => none

/-- Two distinct rings serving as concrete exterior/interior tokens. -/
def ring1 : LinearRing := [((0 : ℚ), (0 : ℚ))]

/-- A second ring token, distinct from `ring1`. -/
def ring2 : LinearRing := [((1 : ℚ), (0 : ℚ))]

/-- A polygon with exterior `ring1` and the single hole `ring2`. -/
def polyHole : PolygonData := ⟨ring1, [ring2]⟩

/-- Ring signed areas with a hole larger than the exterior: exterior `20`,
hole `-100` (opposite orientation). -/
def Sbig : LinearRing → ℚ := fun r => if r = ring1 then 20 else -100

/-- Ring signed areas realizing the 100 m² exterior / 20 m² hole test case:
exterior `100`, hole `-20`. -/
def Shole : LinearRing → ℚ := fun r => if r = ring1 then 100 else -20

/-- Constant ring signed area `100`. -/
def Sconst : LinearRing → ℚ := fun _ => 100

/-- Repair that never raises and returns its input unchanged. -/
def cleanId : Geometry → Except String Geometry := fun g => .ok g

/-- Planar projected area, constantly `0`. -/
def projZero : ℕ → Geometry → ℚ := fun _ _ => 0

/-- A GeoDataFrame with two single polygons and every projection available. -/
def gdfA : Gdf := ⟨[.polygon ⟨ring1, []⟩, .polygon ⟨ring2, []⟩], fun _ => true⟩

/-- A well-formed `.geojson` upload that reads as `gdfA`. -/
def fileA : UploadedFile :=
  ⟨"a.geojson", ".geojson", none, none, .error "not kml", .ok gdfA⟩

/-- An upload with an unsupported `.txt` extension. -/
def fileTxt : UploadedFile :=
  ⟨"b.txt", ".txt", none, none, .error "not kml", .error "not json"⟩

/-- A GeoDataFrame whose CRS no candidate projection can handle. -/
def gdfNoCrs : Gdf := ⟨[.polygon ⟨ring1, []⟩], fun _ => false⟩

/-- A `.geojson` upload that reads as `gdfNoCrs`. -/
def fileNoCrs : UploadedFile :=
  ⟨"c.geojson", ".geojson", none, none, .error "not kml", .ok gdfNoCrs⟩

/-- A visibility-disabled feature covering the single point `(0,0)`. -/
def vfHidden : VFeature := ⟨{((0 : ℚ), (0 : ℚ))}, false⟩

/-- A CRS availability table on which every candidate projection fails. -/
def availNone : ℕ → Bool := fun _ => false

/-! ## Helper lemmas -/

theorem sum_eq_neg_sum_abs (l : List ℚ) (h : ∀ a ∈ l, a ≤ 0) :
    l.sum = -((l.map fun a => |a|).sum) := by
  induction l with
  | nil => simp
  | cons a l ih =>
      have ha := h a (List.mem_cons_self a l)
      have ih := ih fun b hb => h b (List.mem_cons_of_mem a hb)
      simp only [List.sum_cons, List.map_cons, ih, abs_of_nonpos ha]
      ring

theorem sum_eq_sum_abs (l : List ℚ) (h : ∀ a ∈ l, 0 ≤ a) :
    l.sum = (l.map fun a => |a|).sum := by
  induction l with
  | nil => simp
  | cons a l ih =>
      have ha := h a (List.mem_cons_self a l)
      have ih := ih fun b hb => h b (List.mem_cons_of_mem a hb)
      simp only [List.sum_cons, List.map_cons, ih, abs_of_nonneg ha]

theorem mem_unary_union {x : Point} {rs : List Region} :
    x ∈ unary_union rs ↔ ∃ r ∈ rs, x ∈ r := by
  induction rs with
  | nil => simp [unary_union]
  | cons r rs ih =>
      simp only [unary_union, List.foldr_cons, Set.mem_union] at ih ⊢
      rw [ih]
      simp

/-! ## C1: hole-aware geodetic polygon area -/

/-- C1 (amended): for a polygon whose interior rings carry the orientation
(sign) opposite to the exterior ring and whose holes' total magnitude does
not exceed the exterior's — as holds for every valid polygon — the geodetic
area is the absolute exterior area minus the summed absolute hole areas,
which coincides with the claim's clamped formula. -/
theorem C1_hole_subtraction (S : LinearRing → ℚ) (p : PolygonData)
    (hopp : (0 ≤ S p.exterior ∧ ∀ r ∈ p.interiors, S r ≤ 0) ∨
            (S p.exterior ≤ 0 ∧ ∀ r ∈ p.interiors, 0 ≤ S r))
    (hmag : (p.interiors.map fun r => |S r|).sum ≤ |S p.exterior|) :
    geodetic_area S (.polygon p)
        = |S p.exterior| - (p.interiors.map fun r => |S r|).sum ∧
    geodetic_area S (.polygon p)
        = max (|S p.exterior| - (p.interiors.map fun r => |S r|).sum) 0 := by
  have habs : (p.interiors.map fun r => |S r|) = ((p.interiors.map S).map fun a => |a|) := by
    simp [List.map_map, Function.comp_def]
  have harea : geodetic_area S (.polygon p) = |S p.exterior + (p.interiors.map S).sum| := rfl
  have hmain : geodetic_area S (.polygon p)
      = |S p.exterior| - (p.interiors.map fun r => |S r|).sum := by
    rcases hopp with ⟨he, hneg⟩ | ⟨he, hpos⟩
    · have hsum : (p.interiors.map S).sum = -((p.interiors.map fun r => |S r|).sum) := by
        rw [habs]
        exact sum_eq_neg_sum_abs _ (by
          intro a ha
          rcases List.mem_map.mp ha with ⟨r, hr, rfl⟩
          exact hneg r hr)
      rw [harea, hsum, abs_of_nonneg he] at *
      rw [abs_of_nonneg (by linarith [hmag])]
      ring
    · have hsum : (p.interiors.map S).sum = (p.interiors.map fun r => |S r|).sum := by
        rw [habs]
        exact sum_eq_sum_abs _ (by
          intro a ha
          rcases List.mem_map.mp ha with ⟨r, hr, rfl⟩
          exact hpos r hr)
      rw [abs_of_nonpos he] at hmag
      rw [harea, hsum, abs_of_nonpos (by linarith), abs_of_nonpos he]
      ring
  refine ⟨hmain, ?_⟩
  rw [hmain, max_eq_left (by linarith)]

/-- C1 witness: the 100 m² exterior / 20 m² hole polygon yields 80 m². -/
theorem C1_hole_subtraction_witness :
    geodetic_area Shole (.polygon polyHole) = 80 := by
  have h := (C1_hole_subtraction Shole polyHole
    (Or.inl ⟨by norm_num [Shole, polyHole, ring1], by
      intro r hr
      simp only [polyHole, List.mem_singleton] at hr
      subst hr
      norm_num [Shole, ring1, ring2]⟩)
    (by norm_num [Shole, polyHole, ring1, ring2])).1
  rw [h]
  norm_num [Shole, polyHole, ring1, ring2]

/-- C1 counterexample: with exterior signed area 20 and one hole of signed
area −100, the code returns `|20 − 100| = 80`, not the claim's clamped value
`max (20 − 100) 0 = 0`. -/
theorem C1_clamp_counterexample :
    geodetic_area Sbig (.polygon polyHole) ≠
      max (|Sbig polyHole.exterior| - (polyHole.interiors.map fun r => |Sbig r|).sum) 0 := by
  norm_num [geodetic_area, polygon_signed_area, polyHole, Sbig, ring1, ring2]

/-! ## C2: GeometryCollection members in the area computation -/

/-- C2 counterexample: a `GeometryCollection` whose only member is a polygon
of geodetic area 100 gets total area 0 from `geodetic_area` — the collection
is not given the area of its polygonal members. -/
theorem C2_collection_counterexample :
    geodetic_area Sconst (.geometryCollection [.polygon ⟨ring1, []⟩]) = 0 ∧
    geodetic_area Sconst (.polygon ⟨ring1, []⟩) = 100 ∧
    geodetic_area Sconst (.geometryCollection [.polygon ⟨ring1, []⟩]) ≠
      geodetic_area Sconst (.polygon ⟨ring1, []⟩) := by
  refine ⟨rfl, ?_, ?_⟩ <;>
    simp only [geodetic_area, polygon_signed_area, Sconst] <;> norm_num

/-- C2 (amended): `geodetic_area` returns 0 for every `GeometryCollection`,
polygonal members included; collection members only obtain areas because
`explode` separates them into single-part features beforehand. -/
theorem C2_collection_area_zero (S : LinearRing → ℚ) (gs : List Geometry) :
    geodetic_area S (.geometryCollection gs) = 0 ∧
    ((explode_parts (.geometryCollection gs)).map (geodetic_area S)) =
      gs.map (geodetic_area S) :=
  ⟨rfl, rfl⟩

/-! ## C5: boundary difference of dissolved unions -/

/-- C5: the displayed `only_in_1` region contains exactly the points covered
by some repaired feature geometry of the first dataset and by no repaired
feature geometry of the second (and symmetrically, by instantiation). -/
theorem C5_difference_of_unions (A B : List VFeature) (x : Point) :
    x ∈ only_in_first A B ↔
      ((∃ f ∈ A, x ∈ make_valid_buffer0 f.region) ∧
       ¬ ∃ f ∈ B, x ∈ make_valid_buffer0 f.region) := by
  simp only [only_in_first, make_valid_buffer0, dataset_union, Set.mem_diff,
    mem_unary_union, List.mem_map]
  constructor
  · rintro ⟨⟨r, ⟨f, hf, rfl⟩, hx⟩, h2⟩
    exact ⟨⟨f, hf, hx⟩, fun ⟨g, hg, hxg⟩ => h2 ⟨g.region, ⟨g, hg, rfl⟩, hxg⟩⟩
  · rintro ⟨⟨f, hf, hx⟩, h2⟩
    exact ⟨⟨f.region, ⟨f, hf, rfl⟩, hx⟩, fun ⟨r, ⟨g, hg, hr⟩, hxg⟩ =>
      h2 ⟨g, hg, by rw [hr]; exact hxg⟩⟩

/-! ## C6: visibility flags and the comparison union -/

/-- C6 counterexample: a feature whose `enabled` flag is `false` still
contributes its region to the boundary-difference union — the point it
covers appears in `only_in_1` even though the claim says disabled features
are excluded. -/
theorem C6_visibility_counterexample :
    vfHidden.enabled = false ∧
    ((0 : ℚ), (0 : ℚ)) ∈ only_in_first [vfHidden] [] := by
  refine ⟨rfl, ?_⟩
  simp [only_in_first, dataset_union, unary_union, make_valid_buffer0, vfHidden]

/-- C6 (amended): the unions used by the boundary difference are rebuilt
from the datasets' full geometry columns; the `enabled` visibility flag is
never consulted — changing every feature's flag arbitrarily leaves the
computed difference region unchanged. -/
theorem C6_visibility_ignored (t : VFeature → Bool) (A B : List VFeature) :
    only_in_first (A.map fun v => ⟨v.region, t v⟩)
        (B.map fun v => ⟨v.region, t v⟩) = only_in_first A B := by
  simp [only_in_first, dataset_union, List.map_map, Function.comp_def,
    make_valid_buffer0]

/-! ## C10: part counting -/

/-- C10: `count_parts` of a `MultiPolygon` is its number of polygon members;
for a `GeometryCollection` the count is anchored at 0 for the empty
collection and each `Polygon` or `MultiPolygon` member adds exactly one part
(a `MultiPolygon` member counts 1 regardless of its size, a nested
collection or non-polygonal member adds 0) — so the collection's count is
the number of its polygonal members — and a non-polygonal geometry has part
count 0. -/
theorem C10_count_parts_spec (parts : List PolygonData) (gs gs2 : List Geometry)
    (p : PolygonData) :
    count_parts (.multiPolygon parts) = parts.length ∧
    count_parts (.geometryCollection ([] : List Geometry)) = 0 ∧
    count_parts (.geometryCollection (Geometry.polygon p :: gs)) =
      count_parts (.geometryCollection gs) + 1 ∧
    count_parts (.geometryCollection (.multiPolygon parts :: gs)) =
      count_parts (.geometryCollection gs) + 1 ∧
    count_parts (.geometryCollection (.geometryCollection gs2 :: gs)) =
      count_parts (.geometryCollection gs) ∧
    count_parts (.geometryCollection (.nonPolygonal :: gs)) =
      count_parts (.geometryCollection gs) ∧
    count_parts .nonPolygonal = 0 := by
  refine ⟨?_, rfl, ?_, ?_, ?_, ?_, rfl⟩
  · simp [count_parts, List.filter_map, Function.comp_def, isPolygonInstance]
  all_goals
    simp [count_parts, List.filter_cons, isPolygonalInstance]

/-! ## Pipeline helper lemmas -/

theorem process_eq_filterMap (cleanG : Geometry → Except String Geometry)
    (S : LinearRing → ℚ) (pa : ℕ → Geometry → ℚ) (sph : Bool)
    (files : List UploadedFile) :
    process_uploaded_files cleanG S pa sph files
      = files.enum.filterMap (file_gdf_opt cleanG S pa sph) := by
  unfold process_uploaded_files
  suffices h : ∀ (l : List (ℕ × UploadedFile)) (acc : List SourceGdf),
      l.foldl
        (fun gdfs p =>
          match process_one_file cleanG S pa sph p.1 p.2 with
          | .ok g => gdfs ++ [g]
          | .skippedNoProjection => gdfs
          | .failed _ => gdfs) acc
        = acc ++ l.filterMap (file_gdf_opt cleanG S pa sph) by
    simpa using h files.enum []
  intro l
  induction l with
  | nil => intro acc; simp
  | cons p t ih =>
      intro acc
      simp only [List.foldl_cons, List.filterMap_cons, file_gdf_opt]
      cases h : process_one_file cleanG S pa sph p.1 p.2 with
      | ok g => simp [h, ih]
      | skippedNoProjection => simp [h, ih]
      | failed m => simp [h, ih]

theorem process_one_file_ok_rows {cleanG : Geometry → Except String Geometry}
    {S : LinearRing → ℚ} {pa : ℕ → Geometry → ℚ} {sph : Bool}
    {i : ℕ} {f : UploadedFile} {g : SourceGdf}
    (h : process_one_file cleanG S pa sph i f = .ok g) :
    ∃ geoms areas, g.rows = buildRows i geoms areas := by
  unfold process_one_file at h
  split at h
  · simp at h
  · split at h
    · simp at h
    · split at h
      · cases h
        exact ⟨_, _, rfl⟩
      · split at h
        · simp at h
        · cases h
          exact ⟨_, _, rfl⟩

theorem toDigitsRev_eq_digits : ∀ (fuel n : ℕ), n ≤ fuel →
    toDigitsRev fuel n = Nat.digits 10 n := by
  intro fuel
  induction fuel with
  | zero =>
      intro n h
      have hn : n = 0 := Nat.le_zero.mp h
      subst hn
      simp [toDigitsRev]
  | succ fuel ih =>
      intro n h
      by_cases h0 : n = 0
      · subst h0; simp [toDigitsRev]
      · simp only [toDigitsRev, if_neg h0]
        rw [Nat.digits_def' (by norm_num : (1:ℕ) < 10) (Nat.pos_of_ne_zero h0)]
        congr 1
        refine ih (n / 10) ?_
        have := Nat.div_lt_self (Nat.pos_of_ne_zero h0) (by norm_num : 1 < 10)
        omega

theorem digitChar_injOn : ∀ a, a < 10 → ∀ b, b < 10 →
    digitChar a = digitChar b → a = b := by decide

theorem map_digitChar_inj : ∀ (l1 l2 : List ℕ), (∀ x ∈ l1, x < 10) →
    (∀ x ∈ l2, x < 10) → l1.map digitChar = l2.map digitChar → l1 = l2 := by
  intro l1
  induction l1 with
  | nil =>
      intro l2 _ _ h
      cases l2 with
      | nil => rfl
      | cons b t => simp at h
  | cons a t ih =>
      intro l2 h1 h2 h
      cases l2 with
      | nil => simp at h
      | cons b t2 =>
          simp only [List.map_cons, List.cons.injEq] at h
          have hab := digitChar_injOn a (h1 a (by simp)) b (h2 b (by simp)) h.1
          subst hab
          rw [ih t2 (fun x hx => h1 x (by simp [hx]))
            (fun x hx => h2 x (by simp [hx])) h.2]

theorem natToStr_inj_pos {a b : ℕ} (ha : a ≠ 0) (hb : b ≠ 0)
    (h : natToStr a = natToStr b) : a = b := by
  unfold natToStr at h
  rw [if_neg ha, if_neg hb] at h
  have hdata : ((toDigitsRev a a).map digitChar).reverse
      = ((toDigitsRev b b).map digitChar).reverse := congrArg String.data h
  rw [toDigitsRev_eq_digits a a le_rfl, toDigitsRev_eq_digits b b le_rfl] at hdata
  have h2 := List.reverse_injective hdata
  have h3 := map_digitChar_inj _ _
    (fun x hx => Nat.digits_lt_base (by norm_num) hx)
    (fun x hx => Nat.digits_lt_base (by norm_num) hx) h2
  have h4 := congrArg (Nat.ofDigits 10) h3
  rw [Nat.ofDigits_digits, Nat.ofDigits_digits] at h4
  exact_mod_cast h4

theorem poly_id_str_inj (k : ℕ) : Function.Injective (poly_id_str k) := by
  intro i j h
  unfold poly_id_str at h
  have hd := congrArg String.data h
  simp only [String.data_append, List.append_assoc] at hd
  have h2 := List.append_cancel_left (List.append_cancel_left hd)
  have h3 := natToStr_inj_pos (Nat.succ_ne_zero i) (Nat.succ_ne_zero j)
    (String.ext h2)
  omega

theorem buildRows_map_poly_id (k : ℕ) (geoms : List Geometry)
    (areas : List ℚ) :
    (buildRows k geoms areas).map FeatureRow.poly_id
      = (List.range (geoms.zip areas).length).map (poly_id_str k) := by
  calc (buildRows k geoms areas).map FeatureRow.poly_id
      = ((geoms.zip areas).enum).map (fun row => poly_id_str k row.1) := by
        simp only [buildRows, List.map_map]
        rfl
    _ = (((geoms.zip areas).enum).map Prod.fst).map (poly_id_str k) := by
        rw [List.map_map]
        rfl
    _ = (List.range (geoms.zip areas).length).map (poly_id_str k) := by
        rw [List.enum_map_fst]

/-! ## C3: planar projection fallback chain -/

/-- C3: the planar calculator uses exactly the first available projection in
the chain EPSG:6933 → EPSG:5070 → EPSG:3857; when all three fail it returns
no projection and reports the failure, the affected file is skipped by
`continue` (its features get no area and are dropped from the result), and
every other file's contribution to the result is computed independently. -/
theorem C3_projection_chain (avail : ℕ → Bool) :
    (get_gdf_projection avail).1 = ([6933, 5070, 3857] : List ℕ).find? avail
    ∧ (avail 6933 = false → avail 5070 = false → avail 3857 = false →
        get_gdf_projection avail =
          (none, ["EPSG:5070 also unavailable. Falling back to EPSG:3857.",
                  "Failed to reproject to EPSG:3857. Cannot calculate planar area."]))
    ∧ (∀ (cleanG : Geometry → Except String Geometry) (S : LinearRing → ℚ)
        (pa : ℕ → Geometry → ℚ) (i : ℕ) (f : UploadedFile) (gdf : Gdf)
        (cleaned : List Geometry),
        read_vector_file f = .ok gdf →
        (gdf.geoms.map explode_parts).flatten.mapM cleanG = .ok cleaned →
        (get_gdf_projection gdf.crsAvail).1 = none →
        process_one_file cleanG S pa false i f = .skippedNoProjection)
    ∧ (∀ (cleanG : Geometry → Except String Geometry) (S : LinearRing → ℚ)
        (pa : ℕ → Geometry → ℚ) (files : List UploadedFile),
        process_uploaded_files cleanG S pa false files
          = files.enum.filterMap (file_gdf_opt cleanG S pa false)) := by
  refine ⟨?_, ?_, ?_, ?_⟩
  · by_cases h1 : avail 6933
    · rw [List.find?_cons_of_pos _ h1]
      simp [get_gdf_projection, h1]
    · rw [List.find?_cons_of_neg _ h1]
      by_cases h2 : avail 5070
      · rw [List.find?_cons_of_pos _ h2]
        simp [get_gdf_projection, h1, h2]
      · rw [List.find?_cons_of_neg _ h2]
        by_cases h3 : avail 3857
        · rw [List.find?_cons_of_pos _ h3]
          simp [get_gdf_projection, h1, h2, h3]
        · rw [List.find?_cons_of_neg _ h3]
          simp [get_gdf_projection, h1, h2, h3]
  · intro h1 h2 h3
    simp [get_gdf_projection, h1, h2, h3]
  · intro cleanG S pa i f gdf cleaned hread hclean hproj
    unfold process_one_file
    simp only [hread, hclean, hproj, Bool.false_eq_true, if_false]
  · intro cleanG S pa files
    exact process_eq_filterMap cleanG S pa false files

/-- C3 witness: with every projection unavailable, the chain reports no
projection plus the final error message, the affected upload is skipped, and
the remaining upload is still processed. -/
theorem C3_projection_chain_witness :
    get_gdf_projection availNone =
      (none, ["EPSG:5070 also unavailable. Falling back to EPSG:3857.",
              "Failed to reproject to EPSG:3857. Cannot calculate planar area."])
    ∧ process_one_file cleanId Sconst projZero false 1 fileNoCrs
        = .skippedNoProjection
    ∧ (process_uploaded_files cleanId Sconst projZero false [fileNoCrs, fileA]).map
        (fun g => g.source) = ["a.geojson"] := by
  refine ⟨(C3_projection_chain availNone).2.1 rfl rfl rfl, ?_, ?_⟩
  · exact (C3_projection_chain availNone).2.2.1 cleanId Sconst projZero 1
      fileNoCrs gdfNoCrs _ rfl rfl rfl
  · decide

/-! ## C4: per-file error isolation -/

/-- C4: each file's contribution to the processed result is a function of
that file (and its position) alone — the run result is the `filterMap` of
the per-file outcomes, so one file's parsing/repair/area failure cannot
disturb any other file — and a file whose extension is unsupported raises
`ValueError("Unsupported file format.")`, is caught, and contributes
nothing. -/
theorem C4_per_file_isolation (cleanG : Geometry → Except String Geometry)
    (S : LinearRing → ℚ) (pa : ℕ → Geometry → ℚ) (sph : Bool) :
    (∀ files, process_uploaded_files cleanG S pa sph files
        = files.enum.filterMap (file_gdf_opt cleanG S pa sph))
    ∧ (∀ f : UploadedFile,
        f.ext ∉ ([".zip", ".kmz", ".kml", ".geojson", ".json"] : List String) →
        ∀ i, process_one_file cleanG S pa sph i f
            = .failed "Unsupported file format."
          ∧ file_gdf_opt cleanG S pa sph (i, f) = none) := by
  constructor
  · exact fun files => process_eq_filterMap cleanG S pa sph files
  · intro f hf i
    simp only [List.mem_cons, List.not_mem_nil, or_false, not_or] at hf
    obtain ⟨h1, h2, h3, h4, h5⟩ := hf
    have hr : read_vector_file f = .error "Unsupported file format." := by
      unfold read_vector_file
      rw [if_neg h1, if_neg h2, if_neg h3, if_neg (by tauto)]
    have hp : process_one_file cleanG S pa sph i f
        = .failed "Unsupported file format." := by
      unfold process_one_file
      rw [hr]
    exact ⟨hp, by simp [file_gdf_opt, hp]⟩

/-- C4 witness: in a two-file upload where the first file has the
unsupported extension `.txt`, the first file alone is skipped and the second
is fully processed. -/
theorem C4_per_file_isolation_witness :
    process_one_file cleanId Sconst projZero true 0 fileTxt
        = .failed "Unsupported file format."
    ∧ process_uploaded_files cleanId Sconst projZero true [fileTxt, fileA]
        = [fileTxt, fileA].enum.filterMap (file_gdf_opt cleanId Sconst projZero true)
    ∧ (process_uploaded_files cleanId Sconst projZero true [fileTxt, fileA]).map
        (fun g => g.source) = ["a.geojson"] := by
  refine ⟨((C4_per_file_isolation cleanId Sconst projZero true).2 fileTxt
    (by decide) 0).1,
    (C4_per_file_isolation cleanId Sconst projZero true).1 [fileTxt, fileA], ?_⟩
  decide

/-! ## C7: the acres conversion -/

/-- C7 counterexample: a feature of raw area 10000 m² is stored as
`area_m2 = 10000` but reported as `area_acres = 2.47`, while
`10000 × 0.000247105 = 2.47105` — the reported acres value is the rounded
conversion, not the exact product. -/
theorem C7_rounding_counterexample :
    ((buildRows 0 [.polygon ⟨ring1, []⟩] [10000]).map
        fun r => (r.area_m2, r.area_acres)) = [((10000 : ℚ), (247/100 : ℚ))]
    ∧ ((247/100 : ℚ)) ≠ 10000 * ACRES_PER_SQ_METER := by
  constructor
  · have hm : round2 (10000 : ℚ) = 10000 := by
      rw [round2, show (10000:ℚ)*100 = ((1000000:ℕ):ℚ) by norm_num, round_natCast]
      norm_num
    have ha : round2 ((10000 : ℚ) * ACRES_PER_SQ_METER) = 247/100 := by
      have hf : ⌊(247605:ℚ)/1000⌋ = 247 := by
        rw [Int.floor_eq_iff]
        constructor <;> norm_num
      rw [round2, ACRES_PER_SQ_METER,
        show (10000:ℚ) * (247105 / 1000000000) * 100 = 247105/1000 by norm_num,
        round_eq, show (247105:ℚ)/1000 + 1/2 = 247605/1000 by norm_num, hf]
      norm_num
    simp [buildRows, List.enum, hm, ha]
  · rw [ACRES_PER_SQ_METER]
    norm_num

/-- C7 (amended): each processed feature's stored pair `(area_m2,
area_acres)` is `(round2 raw, round2 (raw × 0.000247105))` where `raw` is
the feature's raw square-meter area — acres are derived from the same raw m²
value by the fixed constant before both columns are rounded to two decimals
for presentation. -/
theorem C7_acres_columns (fileIdx : ℕ) (geoms : List Geometry)
    (areas : List ℚ) :
    (buildRows fileIdx geoms areas).map (fun r => (r.area_m2, r.area_acres))
      = (geoms.zip areas).map
          (fun p => (round2 p.2, round2 (p.2 * ACRES_PER_SQ_METER))) := by
  calc (buildRows fileIdx geoms areas).map (fun r => (r.area_m2, r.area_acres))
      = ((geoms.zip areas).enum).map
          (fun row => (round2 row.2.2, round2 (row.2.2 * ACRES_PER_SQ_METER))) := by
        simp only [buildRows, List.map_map]
        rfl
    _ = (((geoms.zip areas).enum).map Prod.snd).map
          (fun p => (round2 p.2, round2 (p.2 * ACRES_PER_SQ_METER))) := by
        rw [List.map_map]
        rfl
    _ = (geoms.zip areas).map
          (fun p => (round2 p.2, round2 (p.2 * ACRES_PER_SQ_METER))) := by
        rw [List.enum_map_snd]

/-! ## C9: poly_id uniqueness within a dataset -/

/-- C9: within any processed dataset, the `poly_id` identifiers
`f"{file_idx+1}-{i+1}"` assigned to its features are pairwise distinct. -/
theorem C9_poly_id_nodup (cleanG : Geometry → Except String Geometry)
    (S : LinearRing → ℚ) (pa : ℕ → Geometry → ℚ) (sph : Bool)
    (files : List UploadedFile) (g : SourceGdf)
    (hg : g ∈ process_uploaded_files cleanG S pa sph files) :
    (g.rows.map FeatureRow.poly_id).Nodup := by
  rw [process_eq_filterMap] at hg
  rcases List.mem_filterMap.mp hg with ⟨p, _, hsome⟩
  have hrows : ∃ geoms areas, g.rows = buildRows p.1 geoms areas := by
    unfold file_gdf_opt at hsome
    cases h : process_one_file cleanG S pa sph p.1 p.2 with
    | ok g2 =>
        rw [h] at hsome
        obtain rfl : g2 = g := by simpa using hsome
        exact process_one_file_ok_rows h
    | skippedNoProjection => rw [h] at hsome; simp at hsome
    | failed m => rw [h] at hsome; simp at hsome
  obtain ⟨geoms, areas, hr⟩ := hrows
  rw [hr, buildRows_map_poly_id]
  exact (List.nodup_range _).map (poly_id_str_inj p.1)

/-- C9 witness: the dataset processed from `fileA` (two features) carries
pairwise-distinct `poly_id`s. -/
theorem C9_poly_id_nodup_witness :
    (((process_uploaded_files cleanId Sconst projZero true [fileA]).get
        ⟨0, by decide⟩).rows.map FeatureRow.poly_id).Nodup :=
  C9_poly_id_nodup cleanId Sconst projZero true [fileA] _
    (List.get_mem _ 0 (by decide))

end RogoEarth
